import Mathlib

/-
Verification of the BEV coordinate-transform and semantic-rasterization
engine of the pedestrian_RL repository, shallow-embedded from
src/data_collection/BEV_sample.py (class BEVWrapper).

Modelling conventions:
* World coordinates are real numbers; the Python floats of the source are
  modelled by ℝ, and numpy trigonometry by Real.cos / Real.sin.
* Python `int(...)` truncation toward zero is modelled by `pyTrunc`.
* A numpy canvas is modelled as a total function ℤ → ℤ → ℕ; cv2 drawing
  primitives write 255 into the cells of their footprint that lie inside
  the canvas bounds (cv2 clips at the array boundary) and leave every
  other cell unchanged.
* cv2.circle with thickness -1 and radius r is modelled as the filled
  Euclidean disk of squared radius r^2; cv2.rectangle with thickness -1
  is the filled axis-aligned rectangle between its two corners,
  inclusive.
* CARLA collaborators are modelled by explicit data: an Actor carries the
  values its getters return, a World carries the actor list returned by
  get_actors() and the map query get_waypoint (collapsed to the lane
  type it yields, the only field the source reads), and
  carla.Transform.transform is rotation by yaw plus translation
  (pitch and roll are not used by the source's data, matching the
  spec's Pose of position plus yaw).
-/

namespace PedRL

/-- A 2-D world-frame point (carla.Location restricted to the x, y fields
the source reads). -/
structure Location where
  x : ℝ
  y : ℝ

/-- A pose: position plus yaw in degrees (carla.Transform restricted to
the fields the source reads). -/
structure Transform where
  location : Location
  yaw : ℝ

/-- Degrees to radians, as np.radians. -/
noncomputable def radians (deg : ℝ) : ℝ := deg * (Real.pi / 180)

/-- carla.Transform.transform applied to a local (x, y) vector: rotate by
yaw, then translate by the transform's location. -/
noncomputable def Transform.apply (t : Transform) (v : ℝ × ℝ) : Location :=
  ⟨t.location.x + v.1 * Real.cos (radians t.yaw) - v.2 * Real.sin (radians t.yaw),
   t.location.y + v.1 * Real.sin (radians t.yaw) + v.2 * Real.cos (radians t.yaw)⟩

/-- A CARLA actor as the source reads it: id, blueprint type id,
transform (get_transform / get_location) and liveness (is_alive). -/
structure Actor where
  id : ℕ
  type_id : String
  transform : Transform
  is_alive : Bool

/-- actor.get_location() returns the transform's location. -/
def Actor.location (a : Actor) : Location := a.transform.location

/-- The lane classifications the source compares against
(carla.LaneType); Parking and Biking stand for the remaining,
discarded classifications. -/
inductive LaneType where
  | Driving
  | Sidewalk
  | Shoulder
  | Parking
  | Biking
deriving DecidableEq

/-- The world snapshot the source queries: get_actors() and the static
map query get_waypoint(loc, project_to_road=False, lane_type=Any),
collapsed to the lane type of the returned waypoint (none when no
waypoint exists at the location). -/
structure World where
  actors : List Actor
  laneTypeAt : Location → Option LaneType

/-- Python int() applied to a real: truncation toward zero. -/
noncomputable def pyTrunc (r : ℝ) : ℤ := if 0 ≤ r then ⌊r⌋ else ⌈r⌉

theorem pyTrunc_intCast (n : ℤ) : pyTrunc (n : ℝ) = n := by
  unfold pyTrunc
  split
  · exact Int.floor_intCast n
  · exact Int.ceil_intCast n

/-- The BEVWrapper configuration fields: size = [width, height],
BEV_range, pixels_per_meter. -/
structure BEVWrapper where
  width : ℕ
  height : ℕ
  bev_range : ℝ
  pixel_per_meter : ℝ

/-- BEVWrapper.world_to_pixel: translate the target into hero-relative
coordinates, rotate by rad = radians(-hero_yaw) with
rx = -dx cos(rad) + dy sin(rad), ry = dx sin(rad) + dy cos(rad),
then scale and truncate.  The hero transform is re-read from the hero
actor on every call (source lines 154-156). -/
noncomputable def BEVWrapper.world_to_pixel (w : BEVWrapper) (hero : Actor)
    (target : Location) : ℤ × ℤ :=
  let hero_location := hero.transform.location
  let hero_yaw := hero.transform.yaw
  let dx := target.x - hero_location.x
  let dy := target.y - hero_location.y
  let rad := radians (-hero_yaw)
  let rx := -dx * Real.cos rad + dy * Real.sin rad
  let ry := dx * Real.sin rad + dy * Real.cos rad
  (pyTrunc ((w.width / 2 : ℕ) + rx * w.pixel_per_meter),
   pyTrunc ((w.height / 2 : ℕ) - ry * w.pixel_per_meter))

/-- The default configuration: 320x320 canvas, 16 m range, 20 px/m. -/
noncomputable def cfg320 : BEVWrapper := ⟨320, 320, 16, 20⟩

/-- A hero pedestrian standing at the world origin with yaw 0. -/
def heroTypeId : String := "walker.pedestrian.0001"

noncomputable def heroO : Actor := ⟨1, heroTypeId, ⟨⟨0, 0⟩, 0⟩, true⟩

/-- The same hero rotated to yaw 90 degrees. -/
noncomputable def heroO90 : Actor := ⟨1, heroTypeId, ⟨⟨0, 0⟩, 90⟩, true⟩

theorem pyTrunc_eq_of {r : ℝ} {n : ℤ} (h : r = (n : ℝ)) : pyTrunc r = n :=
  h ▸ pyTrunc_intCast n

/-- A semantic layer canvas: cell value at pixel column x, row y. -/
def Canvas : Type := ℤ → ℤ → ℕ

/-- np.zeros: the all-zero canvas. -/
def Canvas.zero : Canvas := fun _ _ => 0

/-- The in-bounds test the source applies to transformed pixels:
0 <= px < width and 0 <= py < height. -/
def inCanvas (w : BEVWrapper) (x y : ℤ) : Prop :=
  0 ≤ x ∧ x < (w.width : ℤ) ∧ 0 ≤ y ∧ y < (w.height : ℤ)

instance (w : BEVWrapper) (x y : ℤ) : Decidable (inCanvas w x y) := by
  unfold inCanvas; exact inferInstance

/-- In-bounds test on a pixel pair. -/
def inCanvasP (w : BEVWrapper) (p : ℤ × ℤ) : Prop := inCanvas w p.1 p.2

instance (w : BEVWrapper) (p : ℤ × ℤ) : Decidable (inCanvasP w p) := by
  unfold inCanvasP; exact inferInstance

/-- Squared Euclidean distance between two pixels. -/
def dist2 (p q : ℤ × ℤ) : ℤ := (p.1 - q.1) ^ 2 + (p.2 - q.2) ^ 2

/-- Membership in the filled square of half-width h centered at p
(the footprint of cv2.rectangle from (p.1 - h, p.2 - h) to
(p.1 + h, p.2 + h) with thickness -1, corners inclusive). -/
def inBrush (p : ℤ × ℤ) (h : ℤ) (x y : ℤ) : Prop :=
  p.1 - h ≤ x ∧ x ≤ p.1 + h ∧ p.2 - h ≤ y ∧ y ≤ p.2 + h

instance (p : ℤ × ℤ) (h x y : ℤ) : Decidable (inBrush p h x y) := by
  unfold inBrush; exact inferInstance

/-- cv2.circle(canvas, p, radius=r, color=255, thickness=-1): fill the
disk of radius r around p with 255, clipped to the canvas bounds. -/
def stampCircle (w : BEVWrapper) (c : Canvas) (p : ℤ × ℤ) (r : ℤ) : Canvas :=
  fun x y => if inCanvas w x y ∧ dist2 (x, y) p ≤ r ^ 2 then 255 else c x y

/-- cv2.rectangle(canvas, (p - (h,h)), (p + (h,h)), color=255,
thickness=-1): fill the square brush with 255, clipped to the canvas
bounds. -/
def stampRect (w : BEVWrapper) (c : Canvas) (p : ℤ × ℤ) (h : ℤ) : Canvas :=
  fun x y => if inCanvas w x y ∧ inBrush p h x y then 255 else c x y

/-- actor_list.filter(actor_type + ".*"): the CARLA wildcard pattern
actor_type + ".*" selects the actors whose type_id starts with
actor_type followed by a dot. -/
def typeMatches (t : String) (a : Actor) : Bool :=
  List.isPrefixOf (String.append t (".")).data a.type_id.data

/-- The filter patterns the source passes to draw_actor_layers. -/
def vehicleType : String := "vehicle"

def walkerType : String := "walker"

/-- The body of the loop of BEVWrapper.draw_actor_layers: skip the hero,
transform the actor's location, and when the pixel is in bounds stamp a
filled disk of radius 3. -/
noncomputable def actorStep (w : BEVWrapper) (hero : Actor) (c : Canvas)
    (a : Actor) : Canvas :=
  if a.id = hero.id then c
  else
    let p := w.world_to_pixel hero a.location
    if inCanvasP w p then stampCircle w c p 3 else c

/-- BEVWrapper.draw_actor_layers: fold the loop body over the filtered
actor list, starting from an empty canvas. -/
noncomputable def BEVWrapper.draw_actor_layers (w : BEVWrapper) (hero : Actor)
    (actor_list : List Actor) (actor_type : String) : Canvas :=
  (actor_list.filter (typeMatches actor_type)).foldl (actorStep w hero) Canvas.zero

/-- step_size = 0.1 in draw_road_layers. -/
noncomputable def step_size : ℝ := 1 / 10

/-- brush_size = int(step_size * pixel_per_meter) + 1, as a function of
the step and scale. -/
noncomputable def brush_size_of (s ppm : ℝ) : ℤ := pyTrunc (s * ppm) + 1

/-- The brush size draw_road_layers computes for its configuration. -/
noncomputable def BEVWrapper.brush_size (w : BEVWrapper) : ℤ :=
  brush_size_of step_size w.pixel_per_meter

/-- The number of samples np.arange(-search_range, search_range,
step_size) yields along one axis, with search_range = bev_range / 2. -/
noncomputable def BEVWrapper.sampleCount (w : BEVWrapper) : ℕ :=
  ⌈w.bev_range / step_size⌉₊

/-- The hero-local coordinate of sample index i:
-search_range + i * step_size. -/
noncomputable def BEVWrapper.sampleCoord (w : BEVWrapper) (i : ℕ) : ℝ :=
  -(w.bev_range / 2) + i * step_size

/-- The world location of sample (i, j):
hero_transform.transform(carla.Vector3D(x, y, 0)). -/
noncomputable def sampleLoc (w : BEVWrapper) (hero : Actor) (ij : ℕ × ℕ) :
    Location :=
  hero.transform.apply (w.sampleCoord ij.1, w.sampleCoord ij.2)

/-- All index pairs of the double sampling loop. -/
def pairRange (n : ℕ) : List (ℕ × ℕ) :=
  (List.range n).flatMap (fun i => (List.range n).map (fun j => (i, j)))

theorem mem_pairRange {n : ℕ} {ij : ℕ × ℕ} :
    ij ∈ pairRange n ↔ ij.1 < n ∧ ij.2 < n := by
  rcases ij with ⟨i, j⟩
  simp only [pairRange, List.mem_flatMap, List.mem_map, List.mem_range,
    Prod.mk.injEq]
  constructor
  · rintro ⟨a, ha, b, hb, h1, h2⟩
    subst h1; subst h2; exact ⟨ha, hb⟩
  · rintro ⟨hi, hj⟩
    exact ⟨i, hi, j, hj, rfl, rfl⟩

/-- The lane-canvas half of the loop body of draw_road_layers: query the
map at the sample's world location; when a waypoint exists, a Driving
classification in bounds stamps the square brush on the lane canvas. -/
noncomputable def laneStep (w : BEVWrapper) (hero : Actor)
    (mp : Location → Option LaneType) (c : Canvas) (ij : ℕ × ℕ) : Canvas :=
  match mp (sampleLoc w hero ij) with
  | none => c
  | some lt =>
    let p := w.world_to_pixel hero (sampleLoc w hero ij)
    if inCanvasP w p then
      if lt = LaneType.Driving then stampRect w c p (w.brush_size / 2) else c
    else c

/-- The sidewalk-canvas half of the loop body of draw_road_layers:
Sidewalk or Shoulder classifications in bounds stamp the square brush on
the sidewalk canvas. -/
noncomputable def sideStep (w : BEVWrapper) (hero : Actor)
    (mp : Location → Option LaneType) (c : Canvas) (ij : ℕ × ℕ) : Canvas :=
  match mp (sampleLoc w hero ij) with
  | none => c
  | some lt =>
    let p := w.world_to_pixel hero (sampleLoc w hero ij)
    if inCanvasP w p then
      if lt = LaneType.Sidewalk ∨ lt = LaneType.Shoulder then
        stampRect w c p (w.brush_size / 2)
      else c
    else c

/-- The full loop body of draw_road_layers on the pair of canvases,
mirroring the source's if wp / bounds check / Driving / Sidewalk-or-
Shoulder chain (anything else is discarded). -/
noncomputable def roadStep (w : BEVWrapper) (hero : Actor)
    (mp : Location → Option LaneType) (cs : Canvas × Canvas) (ij : ℕ × ℕ) :
    Canvas × Canvas :=
  match mp (sampleLoc w hero ij) with
  | none => cs
  | some lt =>
    let p := w.world_to_pixel hero (sampleLoc w hero ij)
    if inCanvasP w p then
      if lt = LaneType.Driving then
        (stampRect w cs.1 p (w.brush_size / 2), cs.2)
      else if lt = LaneType.Sidewalk ∨ lt = LaneType.Shoulder then
        (cs.1, stampRect w cs.2 p (w.brush_size / 2))
      else cs
    else cs

/-- BEVWrapper.draw_road_layers: fold the loop body over every sample of
the square search region, starting from two empty canvases; returns
(lane_canvas, sidewalks_canvas). -/
noncomputable def BEVWrapper.draw_road_layers (w : BEVWrapper) (hero : Actor)
    (mp : Location → Option LaneType) : Canvas × Canvas :=
  (pairRange w.sampleCount).foldl (roadStep w hero mp) (Canvas.zero, Canvas.zero)

/-- The dictionary of layers get_bev_data returns. -/
structure FrameLayers where
  lane : Canvas
  sidewalk : Canvas
  vehicle : Canvas
  pedestrian : Canvas

/-- BEVWrapper.get_bev_data: read the actor list, rasterize the road
layers and both actor layers, and return the four named layers.  When
the hero reference is absent (hero_actor is None) the first
hero_actor.get_transform() dereference raises, before any layer is
built; this is the error case. -/
noncomputable def BEVWrapper.get_bev_data (w : BEVWrapper)
    (hero_actor : Option Actor) (world : World) : Except Unit FrameLayers :=
  match hero_actor with
  | none => Except.error ()
  | some hero =>
    let actor_list := world.actors
    let roads := w.draw_road_layers hero world.laneTypeAt
    Except.ok
      { lane := roads.1
        sidewalk := roads.2
        vehicle := w.draw_actor_layers hero actor_list vehicleType
        pedestrian := w.draw_actor_layers hero actor_list walkerType }

/-- Number of hero_actor.get_transform() calls performed by one
draw_road_layers call: one direct read (source line 197) plus one inside
world_to_pixel (source line 154) for every sample whose map query
returns a waypoint. -/
noncomputable def roadPoseReads (w : BEVWrapper) (hero : Actor)
    (mp : Location → Option LaneType) : ℕ :=
  1 + ((pairRange w.sampleCount).map (fun ij =>
        match mp (sampleLoc w hero ij) with
        | none => 0
        | some _ => 1)).sum

/-- Number of hero_actor.get_transform() calls performed by one
draw_actor_layers call: one inside world_to_pixel for every filtered
actor other than the hero. -/
def actorPoseReads (hero : Actor) (actor_list : List Actor)
    (actor_type : String) : ℕ :=
  ((actor_list.filter (typeMatches actor_type)).map (fun a =>
      if a.id = hero.id then 0 else 1)).sum

/-- Total number of hero_actor.get_transform() calls during one
get_bev_data call. -/
noncomputable def bevPoseReads (w : BEVWrapper) (hero : Actor)
    (world : World) : ℕ :=
  roadPoseReads w hero world.laneTypeAt
    + actorPoseReads hero world.actors vehicleType
    + actorPoseReads hero world.actors walkerType

/-- The condition under which the draw_actor_layers loop body writes 255
at pixel (x, y) while processing actor a. -/
def actorHit (w : BEVWrapper) (hero a : Actor) (x y : ℤ) : Prop :=
  a.id ≠ hero.id ∧ inCanvasP w (w.world_to_pixel hero a.location) ∧
    inCanvas w x y ∧ dist2 (x, y) (w.world_to_pixel hero a.location) ≤ 3 ^ 2

/-- The condition under which the draw_road_layers loop body writes 255
at pixel (x, y) on the lane canvas while processing sample ij. -/
def laneHit (w : BEVWrapper) (hero : Actor) (mp : Location → Option LaneType)
    (ij : ℕ × ℕ) (x y : ℤ) : Prop :=
  mp (sampleLoc w hero ij) = some LaneType.Driving ∧
    inCanvasP w (w.world_to_pixel hero (sampleLoc w hero ij)) ∧
    inCanvas w x y ∧
    inBrush (w.world_to_pixel hero (sampleLoc w hero ij)) (w.brush_size / 2) x y

/-- The condition under which the draw_road_layers loop body writes 255
at pixel (x, y) on the sidewalk canvas while processing sample ij. -/
def sideHit (w : BEVWrapper) (hero : Actor) (mp : Location → Option LaneType)
    (ij : ℕ × ℕ) (x y : ℤ) : Prop :=
  (mp (sampleLoc w hero ij) = some LaneType.Sidewalk ∨
    mp (sampleLoc w hero ij) = some LaneType.Shoulder) ∧
    inCanvasP w (w.world_to_pixel hero (sampleLoc w hero ij)) ∧
    inCanvas w x y ∧
    inBrush (w.world_to_pixel hero (sampleLoc w hero ij)) (w.brush_size / 2) x y

/-- A conditional-stamp fold writes 255 at a cell exactly when some list
element's condition holds there (or the cell already held 255), and
never writes any value other than 255. -/
theorem foldl_stamp_char {α : Type} (f : Canvas → α → Canvas)
    (P : α → ℤ → ℤ → Prop)
    (hf : ∀ c a x y, (P a x y → f c a x y = 255) ∧
      (¬ P a x y → f c a x y = c x y)) :
    ∀ (l : List α) (c : Canvas) (x y : ℤ),
      ((l.foldl f c) x y = 255 ↔ (∃ a ∈ l, P a x y) ∨ c x y = 255) ∧
      ((l.foldl f c) x y = 255 ∨ (l.foldl f c) x y = c x y) := by
  intro l
  induction l with
  | nil => intro c x y; simp
  | cons a t ih =>
    intro c x y
    simp only [List.foldl_cons, List.mem_cons]
    have hstep := hf c a x y
    have ht := ih (f c a) x y
    by_cases h : P a x y
    · have he : f c a x y = 255 := hstep.1 h
      refine ⟨?_, ?_⟩
      · rw [ht.1]
        constructor
        · intro _; exact Or.inl ⟨a, Or.inl rfl, h⟩
        · intro _; exact Or.inr he
      · rcases ht.2 with h2 | h2
        · exact Or.inl h2
        · exact Or.inl (h2.trans he)
    · have he : f c a x y = c x y := hstep.2 h
      refine ⟨?_, ?_⟩
      · rw [ht.1, he]
        constructor
        · rintro (⟨b, hb, hPb⟩ | hc)
          · exact Or.inl ⟨b, Or.inr hb, hPb⟩
          · exact Or.inr hc
        · rintro (⟨b, hb, hPb⟩ | hc)
          · rcases hb with rfl | hb
            · exact absurd hPb h
            · exact Or.inl ⟨b, hb, hPb⟩
          · exact Or.inr hc
      · rcases ht.2 with h2 | h2
        · exact Or.inl h2
        · exact Or.inr (h2.trans he)

/-- The draw_actor_layers loop body writes 255 exactly under actorHit
and otherwise leaves the cell unchanged. -/
theorem actorStep_spec (w : BEVWrapper) (hero : Actor) :
    ∀ (c : Canvas) (a : Actor) (x y : ℤ),
      (actorHit w hero a x y → actorStep w hero c a x y = 255) ∧
      (¬ actorHit w hero a x y → actorStep w hero c a x y = c x y) := by
  intro c a x y
  constructor
  · rintro ⟨hid, hin, hxy, hd⟩
    simp only [actorStep]
    rw [if_neg hid, if_pos hin]
    simp only [stampCircle]
    rw [if_pos ⟨hxy, hd⟩]
  · intro hn
    simp only [actorStep]
    by_cases hid : a.id = hero.id
    · rw [if_pos hid]
    · rw [if_neg hid]
      by_cases hin : inCanvasP w (w.world_to_pixel hero a.location)
      · rw [if_pos hin]
        simp only [stampCircle]
        rw [if_neg (fun hc => hn ⟨hid, hin, hc.1, hc.2⟩)]
      · rw [if_neg hin]

/-- The lane half of the draw_road_layers loop body writes 255 exactly
under laneHit and otherwise leaves the cell unchanged. -/
theorem laneStep_spec (w : BEVWrapper) (hero : Actor)
    (mp : Location → Option LaneType) :
    ∀ (c : Canvas) (ij : ℕ × ℕ) (x y : ℤ),
      (laneHit w hero mp ij x y → laneStep w hero mp c ij x y = 255) ∧
      (¬ laneHit w hero mp ij x y → laneStep w hero mp c ij x y = c x y) := by
  intro c ij x y
  constructor
  · rintro ⟨hmp, hin, hxy, hb⟩
    simp [laneStep, hmp, hin, stampRect, hxy, hb]
  · intro hn
    cases hmp : mp (sampleLoc w hero ij) with
    | none => simp [laneStep, hmp]
    | some lt =>
      by_cases hin : inCanvasP w (w.world_to_pixel hero (sampleLoc w hero ij))
      · by_cases hdrv : lt = LaneType.Driving
        · subst hdrv
          have hnot : ¬ (inCanvas w x y ∧
              inBrush (w.world_to_pixel hero (sampleLoc w hero ij))
                (w.brush_size / 2) x y) :=
            fun hc => hn ⟨hmp, hin, hc.1, hc.2⟩
          simp [laneStep, hmp, hin, stampRect, hnot]
        · simp [laneStep, hmp, hin, hdrv]
      · simp [laneStep, hmp, hin]

/-- The sidewalk half of the draw_road_layers loop body writes 255
exactly under sideHit and otherwise leaves the cell unchanged. -/
theorem sideStep_spec (w : BEVWrapper) (hero : Actor)
    (mp : Location → Option LaneType) :
    ∀ (c : Canvas) (ij : ℕ × ℕ) (x y : ℤ),
      (sideHit w hero mp ij x y → sideStep w hero mp c ij x y = 255) ∧
      (¬ sideHit w hero mp ij x y → sideStep w hero mp c ij x y = c x y) := by
  intro c ij x y
  constructor
  · rintro ⟨hmp, hin, hxy, hb⟩
    rcases hmp with hmp | hmp
    · simp [sideStep, hmp, hin, stampRect, hxy, hb]
    · simp [sideStep, hmp, hin, stampRect, hxy, hb]
  · intro hn
    cases hmp : mp (sampleLoc w hero ij) with
    | none => simp [sideStep, hmp]
    | some lt =>
      by_cases hin : inCanvasP w (w.world_to_pixel hero (sampleLoc w hero ij))
      · by_cases hsw : lt = LaneType.Sidewalk ∨ lt = LaneType.Shoulder
        · have hnot : ¬ (inCanvas w x y ∧
              inBrush (w.world_to_pixel hero (sampleLoc w hero ij))
                (w.brush_size / 2) x y) := by
            intro hc
            refine hn ⟨?_, hin, hc.1, hc.2⟩
            rcases hsw with rfl | rfl
            · exact Or.inl hmp
            · exact Or.inr hmp
          rcases hsw with rfl | rfl
          · simp [sideStep, hmp, hin, stampRect, hnot]
          · simp [sideStep, hmp, hin, stampRect, hnot]
        · simp [sideStep, hmp, hin, hsw]
      · simp [sideStep, hmp, hin]

/-- A fold whose step acts independently on the two components of a pair
is the pair of the component folds. -/
theorem foldl_pair {α β γ : Type} (F : β × γ → α → β × γ) (f : β → α → β)
    (g : γ → α → γ) (hF : ∀ cs a, F cs a = (f cs.1 a, g cs.2 a)) :
    ∀ (l : List α) (c : β) (d : γ),
      l.foldl F (c, d) = (l.foldl f c, l.foldl g d) := by
  intro l
  induction l with
  | nil => intro c d; rfl
  | cons a t ih =>
    intro c d
    simp only [List.foldl_cons, hF]
    exact ih (f c a) (g d a)

/-- The draw_road_layers loop body acts componentwise: its lane
component is laneStep and its sidewalk component is sideStep. -/
theorem roadStep_eq (w : BEVWrapper) (hero : Actor)
    (mp : Location → Option LaneType) (cs : Canvas × Canvas) (ij : ℕ × ℕ) :
    roadStep w hero mp cs ij =
      (laneStep w hero mp cs.1 ij, sideStep w hero mp cs.2 ij) := by
  cases hmp : mp (sampleLoc w hero ij) with
  | none => simp [roadStep, laneStep, sideStep, hmp]
  | some lt =>
    by_cases hin : inCanvasP w (w.world_to_pixel hero (sampleLoc w hero ij))
    · by_cases hdrv : lt = LaneType.Driving
      · subst hdrv
        simp [roadStep, laneStep, sideStep, hmp, hin]
      · by_cases hsw : lt = LaneType.Sidewalk ∨ lt = LaneType.Shoulder
        · simp [roadStep, laneStep, sideStep, hmp, hin, hdrv, hsw]
        · simp [roadStep, laneStep, sideStep, hmp, hin, hdrv, hsw]
    · simp [roadStep, laneStep, sideStep, hmp, hin]

/-- draw_road_layers splits into the two component folds. -/
theorem draw_road_layers_eq (w : BEVWrapper) (hero : Actor)
    (mp : Location → Option LaneType) :
    w.draw_road_layers hero mp =
      ((pairRange w.sampleCount).foldl (laneStep w hero mp) Canvas.zero,
       (pairRange w.sampleCount).foldl (sideStep w hero mp) Canvas.zero) := by
  unfold BEVWrapper.draw_road_layers
  exact foldl_pair _ _ _ (roadStep_eq w hero mp) _ _ _

/-- Cell-level characterization of draw_actor_layers: a cell is 255
exactly when some actor of the filtered list hits it, and every cell is
255 or 0. -/
theorem draw_actor_char (w : BEVWrapper) (hero : Actor)
    (actor_list : List Actor) (t : String) (x y : ℤ) :
    (w.draw_actor_layers hero actor_list t x y = 255 ↔
      ∃ a ∈ actor_list, typeMatches t a = true ∧ actorHit w hero a x y) ∧
    (w.draw_actor_layers hero actor_list t x y = 255 ∨
      w.draw_actor_layers hero actor_list t x y = 0) := by
  have h := foldl_stamp_char (actorStep w hero) (actorHit w hero)
    (actorStep_spec w hero) (actor_list.filter (typeMatches t)) Canvas.zero x y
  unfold BEVWrapper.draw_actor_layers
  constructor
  · rw [h.1]
    simp only [Canvas.zero, List.mem_filter]
    constructor
    · rintro (⟨a, ⟨ha, hm⟩, hhit⟩ | hfalse)
      · exact ⟨a, ha, hm, hhit⟩
      · exact absurd hfalse (by norm_num)
    · rintro ⟨a, ha, hm, hhit⟩
      exact Or.inl ⟨a, ⟨ha, hm⟩, hhit⟩
  · rcases h.2 with h2 | h2
    · exact Or.inl h2
    · exact Or.inr h2

/-- Cell-level characterization of the lane canvas of draw_road_layers. -/
theorem lane_canvas_char (w : BEVWrapper) (hero : Actor)
    (mp : Location → Option LaneType) (x y : ℤ) :
    ((w.draw_road_layers hero mp).1 x y = 255 ↔
      ∃ ij, ij.1 < w.sampleCount ∧ ij.2 < w.sampleCount ∧
        laneHit w hero mp ij x y) ∧
    ((w.draw_road_layers hero mp).1 x y = 255 ∨
      (w.draw_road_layers hero mp).1 x y = 0) := by
  rw [draw_road_layers_eq]
  have h := foldl_stamp_char (laneStep w hero mp) (laneHit w hero mp)
    (laneStep_spec w hero mp) (pairRange w.sampleCount) Canvas.zero x y
  constructor
  · rw [h.1]
    simp only [Canvas.zero]
    constructor
    · rintro (⟨ij, hmem, hhit⟩ | hfalse)
      · exact ⟨ij, (mem_pairRange.1 hmem).1, (mem_pairRange.1 hmem).2, hhit⟩
      · exact absurd hfalse (by norm_num)
    · rintro ⟨ij, hi, hj, hhit⟩
      exact Or.inl ⟨ij, mem_pairRange.2 ⟨hi, hj⟩, hhit⟩
  · rcases h.2 with h2 | h2
    · exact Or.inl h2
    · exact Or.inr h2

/-- Cell-level characterization of the sidewalk canvas of
draw_road_layers. -/
theorem side_canvas_char (w : BEVWrapper) (hero : Actor)
    (mp : Location → Option LaneType) (x y : ℤ) :
    ((w.draw_road_layers hero mp).2 x y = 255 ↔
      ∃ ij, ij.1 < w.sampleCount ∧ ij.2 < w.sampleCount ∧
        sideHit w hero mp ij x y) ∧
    ((w.draw_road_layers hero mp).2 x y = 255 ∨
      (w.draw_road_layers hero mp).2 x y = 0) := by
  rw [draw_road_layers_eq]
  have h := foldl_stamp_char (sideStep w hero mp) (sideHit w hero mp)
    (sideStep_spec w hero mp) (pairRange w.sampleCount) Canvas.zero x y
  constructor
  · rw [h.1]
    simp only [Canvas.zero]
    constructor
    · rintro (⟨ij, hmem, hhit⟩ | hfalse)
      · exact ⟨ij, (mem_pairRange.1 hmem).1, (mem_pairRange.1 hmem).2, hhit⟩
      · exact absurd hfalse (by norm_num)
    · rintro ⟨ij, hi, hj, hhit⟩
      exact Or.inl ⟨ij, mem_pairRange.2 ⟨hi, hj⟩, hhit⟩
  · rcases h.2 with h2 | h2
    · exact Or.inl h2
    · exact Or.inr h2

/-- C1: the hero's own position always maps exactly to the canvas center
(width/2, height/2) — confirmed for every configuration and pose; but a
point on the hero's forward axis at distance d = 5 (local (5, 0) mapped
through the hero transform) lands at pixel (60, 160), to the LEFT of the
center, not at (160, 60) above it as the claim (and the source's own
comments, "Make hero pedestrian always facing north (upwards)") require. -/
theorem world_to_pixel_centering_and_forward_axis :
    (∀ (w : BEVWrapper) (hero : Actor),
        w.world_to_pixel hero hero.location =
          (((w.width / 2 : ℕ) : ℤ), ((w.height / 2 : ℕ) : ℤ))) ∧
    cfg320.world_to_pixel heroO (heroO.transform.apply (5, 0)) = (60, 160) ∧
    ((60 : ℤ), (160 : ℤ)) ≠ ((160 : ℤ), (60 : ℤ)) := by
  refine ⟨?_, ?_, by decide⟩
  · intro w hero
    simp only [BEVWrapper.world_to_pixel, Actor.location, Prod.mk.injEq]
    constructor
    · exact pyTrunc_eq_of (by rw [Int.cast_natCast]; ring)
    · exact pyTrunc_eq_of (by rw [Int.cast_natCast]; ring)
  · have happly : heroO.transform.apply (5, 0) = ⟨5, 0⟩ := by
      simp only [Transform.apply, heroO, radians, Location.mk.injEq]
      norm_num [Real.cos_zero, Real.sin_zero]
    rw [happly]
    simp only [BEVWrapper.world_to_pixel, heroO, cfg320, radians, Prod.mk.injEq]
    constructor
    · exact pyTrunc_eq_of (by push_cast; norm_num [Real.cos_zero, Real.sin_zero])
    · exact pyTrunc_eq_of (by push_cast; norm_num [Real.cos_zero, Real.sin_zero])

/-- C2 counterexample: in the 320x320, 20 px/m scenario with the hero at
the origin and yaw 0, the vehicle at world (5, 0) does NOT map to pixel
(260, 160) — the code produces (60, 160). -/
theorem world_to_pixel_scenario_counterexample :
    cfg320.world_to_pixel heroO ⟨5, 0⟩ ≠ (260, 160) := by
  have heval : cfg320.world_to_pixel heroO ⟨5, 0⟩ = (60, 160) := by
    simp only [BEVWrapper.world_to_pixel, heroO, cfg320, radians, Prod.mk.injEq]
    constructor
    · exact pyTrunc_eq_of (by push_cast; norm_num [Real.cos_zero, Real.sin_zero])
    · exact pyTrunc_eq_of (by push_cast; norm_num [Real.cos_zero, Real.sin_zero])
  rw [heval]
  decide

/-- C2 (amended): in the 320x320, 20 px/m scenario, the hero at world
(0,0) with yaw 0 maps the target at world (0,5) to pixel (160, 60) as
the claim states, but the target at world (5,0) maps to (60, 160) (not
(260, 160)), and with hero yaw 90 degrees the target at world (0,5)
maps to (60, 160) (not (260, 160)). -/
theorem world_to_pixel_scenario_eval :
    cfg320.world_to_pixel heroO ⟨0, 5⟩ = (160, 60) ∧
    cfg320.world_to_pixel heroO ⟨5, 0⟩ = (60, 160) ∧
    cfg320.world_to_pixel heroO90 ⟨0, 5⟩ = (60, 160) := by
  refine ⟨?_, ?_, ?_⟩
  · simp only [BEVWrapper.world_to_pixel, heroO, cfg320, radians, Prod.mk.injEq]
    constructor
    · exact pyTrunc_eq_of (by push_cast; norm_num [Real.cos_zero, Real.sin_zero])
    · exact pyTrunc_eq_of (by push_cast; norm_num [Real.cos_zero, Real.sin_zero])
  · simp only [BEVWrapper.world_to_pixel, heroO, cfg320, radians, Prod.mk.injEq]
    constructor
    · exact pyTrunc_eq_of (by push_cast; norm_num [Real.cos_zero, Real.sin_zero])
    · exact pyTrunc_eq_of (by push_cast; norm_num [Real.cos_zero, Real.sin_zero])
  · have hrad : radians (-(90 : ℝ)) = -(Real.pi / 2) := by
      unfold radians; ring
    simp only [BEVWrapper.world_to_pixel, heroO90, cfg320, hrad, Prod.mk.injEq,
      Real.cos_neg, Real.sin_neg, Real.cos_pi_div_two, Real.sin_pi_div_two]
    constructor
    · exact pyTrunc_eq_of (by push_cast; norm_num)
    · exact pyTrunc_eq_of (by push_cast; norm_num)

/-- Evaluation of the brush size at the source's configuration:
int(0.1 * 20) + 1 = 3. -/
theorem brush_size_eval : brush_size_of step_size 20 = 3 := by
  unfold brush_size_of step_size pyTrunc
  rw [if_pos (by norm_num)]
  norm_num

/-- Evaluation of the brush half-width at the source's configuration:
3 // 2 = 1. -/
theorem brush_half_eval : brush_size_of step_size 20 / 2 = 1 := by
  rw [brush_size_eval]
  decide

/-- C4 counterexample: at step 0.1 m and 20 px/m the brush half-width the
code computes is int(0.1*20+1)//2 = 1, not ceil(0.1*20)/2 + 1 = 2 as the
claim states. -/
theorem brush_half_width_counterexample :
    ¬ (brush_size_of step_size 20 / 2 = ⌈step_size * (20 : ℝ)⌉ / 2 + 1) := by
  rw [brush_half_eval]
  have h2 : ⌈step_size * (20 : ℝ)⌉ = 2 := by unfold step_size; norm_num
  rw [h2]
  decide

/-- C4 (amended): the brush stamped per sample has half-width
(int(s*ppm) + 1) // 2; its full width 2*halfWidth + 1 is always at least
s*ppm pixels; at step 0.1 m and 20 px/m the half-width is at least one
pixel, and two same-class samples whose pixel centers are one step
(2 pixels) apart leave no zero gap pixel strictly between their stamped
footprints: every canvas cell of the bridging strip is covered. -/
theorem brush_coverage :
    (∀ s ppm : ℝ, 0 ≤ s * ppm →
      s * ppm ≤ ((2 * (brush_size_of s ppm / 2) + 1 : ℤ) : ℝ)) ∧
    (1 ≤ brush_size_of step_size 20 / 2) ∧
    (∀ (w : BEVWrapper) (c : Canvas) (p : ℤ × ℤ) (x y : ℤ),
      inCanvas w x y → p.1 - 1 ≤ x → x ≤ p.1 + 3 → p.2 - 1 ≤ y → y ≤ p.2 + 1 →
      stampRect w (stampRect w c p (brush_size_of step_size 20 / 2))
        (p.1 + 2, p.2) (brush_size_of step_size 20 / 2) x y = 255) := by
  refine ⟨?_, ?_, ?_⟩
  · intro s ppm h
    have hpt : pyTrunc (s * ppm) = ⌊s * ppm⌋ := by
      unfold pyTrunc; rw [if_pos h]
    have hlt : s * ppm < (⌊s * ppm⌋ : ℝ) + 1 := Int.lt_floor_add_one _
    have hint : (⌊s * ppm⌋ + 1 : ℤ) ≤ 2 * (brush_size_of s ppm / 2) + 1 := by
      unfold brush_size_of
      rw [hpt]
      omega
    have hcast : ((⌊s * ppm⌋ + 1 : ℤ) : ℝ) ≤
        ((2 * (brush_size_of s ppm / 2) + 1 : ℤ) : ℝ) := by
      exact_mod_cast hint
    calc s * ppm ≤ ((⌊s * ppm⌋ + 1 : ℤ) : ℝ) := by push_cast; linarith
    _ ≤ ((2 * (brush_size_of s ppm / 2) + 1 : ℤ) : ℝ) := hcast
  · rw [brush_half_eval]
  · intro w c p x y hxy h1 h2 h3 h4
    rw [brush_half_eval]
    simp only [stampRect, inBrush]
    by_cases hx : x ≤ p.1 + 1
    · by_cases hA : inCanvas w x y ∧ ((p.1 + 2, p.2).1 - 1 ≤ x ∧
        x ≤ (p.1 + 2, p.2).1 + 1 ∧ (p.1 + 2, p.2).2 - 1 ≤ y ∧
        y ≤ (p.1 + 2, p.2).2 + 1)
      · rw [if_pos hA]
      · rw [if_neg hA, if_pos ⟨hxy, h1, hx, h3, h4⟩]
    · push_neg at hx
      refine if_pos ⟨hxy, ?_, ?_, ?_, ?_⟩
      · show p.1 + 2 - 1 ≤ x
        omega
      · show x ≤ p.1 + 2 + 1
        omega
      · show p.2 - 1 ≤ y
        omega
      · show y ≤ p.2 + 1
        omega

/-- C4 witness: the general coverage bound and the no-gap property, each
applied at the source's concrete configuration: step 0.1 m, 20 px/m,
320x320 canvas, two brushes stamped at pixel centers (160,160) and
(162,160), checked at the strictly-between column x = 161. -/
theorem brush_coverage_witness :
    (step_size * (20 : ℝ) ≤
      ((2 * (brush_size_of step_size 20 / 2) + 1 : ℤ) : ℝ)) ∧
    stampRect cfg320 (stampRect cfg320 Canvas.zero ((160 : ℤ), (160 : ℤ))
        (brush_size_of step_size 20 / 2))
      ((160 : ℤ) + 2, (160 : ℤ)) (brush_size_of step_size 20 / 2)
      161 160 = 255 := by
  constructor
  · exact brush_coverage.1 step_size 20 (by unfold step_size; norm_num)
  · exact brush_coverage.2.2 cfg320 Canvas.zero (160, 160) 161 160
      (by unfold cfg320; decide) (by decide) (by decide) (by decide) (by decide)

/-- A second actor: a vehicle for the pose-read counterexample world. -/
def vehTypeId : String := "vehicle.tesla.model3"

noncomputable def veh1 : Actor := ⟨2, vehTypeId, ⟨⟨3, 3⟩, 0⟩, true⟩

/-- A world with the hero pedestrian, one vehicle and an empty map. -/
noncomputable def worldTwoActors : World := ⟨[heroO, veh1], fun _ => none⟩

/-- Indicator sums count the matching elements. -/
theorem sum_ite_count {α : Type} (l : List α) (p : α → Bool) :
    (l.map fun a => if p a then (1 : ℕ) else 0).sum = l.countP p := by
  induction l with
  | nil => rfl
  | cons a t ih =>
    simp only [List.map_cons, List.sum_cons, List.countP_cons, ih]
    cases h : p a
    · simp [Nat.add_comm]
    · simp [Nat.add_comm]

/-- C3 counterexample: in a world holding the hero and one other vehicle,
with a map that classifies nothing, one get_bev_data call reads the hero
transform twice (once directly in draw_road_layers and once inside
world_to_pixel for the vehicle), not exactly once. -/
theorem pose_reads_counterexample :
    bevPoseReads cfg320 heroO worldTwoActors ≠ 1 := by
  have hroad : roadPoseReads cfg320 heroO worldTwoActors.laneTypeAt = 1 := by
    unfold roadPoseReads worldTwoActors
    have hz : ((pairRange cfg320.sampleCount).map fun ij =>
        match (fun (_ : Location) => (none : Option LaneType))
            (sampleLoc cfg320 heroO ij) with
        | none => 0
        | some _ => 1).sum = 0 := by
      refine List.sum_eq_zero ?_
      intro n hn
      simp only [List.mem_map] at hn
      rcases hn with ⟨ij, _, h⟩
      exact h.symm
    rw [hz]
  have hv : actorPoseReads heroO worldTwoActors.actors vehicleType = 1 := by
    decide
  have hw : actorPoseReads heroO worldTwoActors.actors walkerType = 0 := by
    decide
  unfold bevPoseReads
  rw [hroad, hv, hw]
  decide

/-- C3 (amended): during one get_bev_data call the hero transform is not
read once but once directly plus once per classified road sample plus
once per filtered non-hero actor of each of the two actor layers; all
reads happen inside the one call and return the one transform stored on
the hero actor, so every layer is still computed from a single hero
pose. -/
theorem bev_pose_reads_eq (w : BEVWrapper) (hero : Actor) (world : World) :
    bevPoseReads w hero world =
      1 + (pairRange w.sampleCount).countP
            (fun ij => (world.laneTypeAt (sampleLoc w hero ij)).isSome)
        + (world.actors.filter (typeMatches vehicleType)).countP
            (fun a => a.id != hero.id)
        + (world.actors.filter (typeMatches walkerType)).countP
            (fun a => a.id != hero.id) := by
  unfold bevPoseReads roadPoseReads actorPoseReads
  have h1 : (fun (ij : ℕ × ℕ) =>
      match world.laneTypeAt (sampleLoc w hero ij) with
      | none => 0
      | some _ => 1) = fun ij =>
        if (world.laneTypeAt (sampleLoc w hero ij)).isSome then (1 : ℕ)
        else 0 := by
    funext ij
    cases world.laneTypeAt (sampleLoc w hero ij) <;> rfl
  have h2 : (fun (a : Actor) => if a.id = hero.id then (0 : ℕ) else 1) =
      fun a => if (a.id != hero.id) then (1 : ℕ) else 0 := by
    funext a
    by_cases h : a.id = hero.id <;> simp [h]
  rw [h1, h2, sum_ite_count, sum_ite_count, sum_ite_count]

/-- Whether an Except value is a success. -/
def isOkE {e a : Type} : Except e a → Bool
  | Except.ok _ => true
  | Except.error _ => false

/-- C5: every cell of every layer produced by get_bev_data is exactly 0
or 255, for every world snapshot and hero pose. -/
theorem layers_binary (w : BEVWrapper) (hero : Actor) (world : World)
    (f : FrameLayers) (h : w.get_bev_data (some hero) world = Except.ok f) :
    ∀ x y : ℤ,
      (f.lane x y = 0 ∨ f.lane x y = 255) ∧
      (f.sidewalk x y = 0 ∨ f.sidewalk x y = 255) ∧
      (f.vehicle x y = 0 ∨ f.vehicle x y = 255) ∧
      (f.pedestrian x y = 0 ∨ f.pedestrian x y = 255) := by
  have h2 := h
  simp only [BEVWrapper.get_bev_data, Except.ok.injEq] at h2
  have hf : f = { lane := (w.draw_road_layers hero world.laneTypeAt).1
                  sidewalk := (w.draw_road_layers hero world.laneTypeAt).2
                  vehicle := w.draw_actor_layers hero world.actors vehicleType
                  pedestrian := w.draw_actor_layers hero world.actors walkerType } :=
    h2.symm
  subst hf
  intro x y
  refine ⟨?_, ?_, ?_, ?_⟩
  · rcases (lane_canvas_char w hero world.laneTypeAt x y).2 with h' | h'
    · exact Or.inr h'
    · exact Or.inl h'
  · rcases (side_canvas_char w hero world.laneTypeAt x y).2 with h' | h'
    · exact Or.inr h'
    · exact Or.inl h'
  · rcases (draw_actor_char w hero world.actors vehicleType x y).2 with h' | h'
    · exact Or.inr h'
    · exact Or.inl h'
  · rcases (draw_actor_char w hero world.actors walkerType x y).2 with h' | h'
    · exact Or.inr h'
    · exact Or.inl h'

/-- The frame get_bev_data builds for the two-actor world, used to
discharge the hypothesis of the binary-invariant theorem. -/
noncomputable def frameTwoActors : FrameLayers :=
  { lane := (cfg320.draw_road_layers heroO worldTwoActors.laneTypeAt).1
    sidewalk := (cfg320.draw_road_layers heroO worldTwoActors.laneTypeAt).2
    vehicle := cfg320.draw_actor_layers heroO worldTwoActors.actors vehicleType
    pedestrian := cfg320.draw_actor_layers heroO worldTwoActors.actors walkerType }

/-- C5 witness: the binary invariant instantiated on the concrete
two-actor world at cell (0, 0). -/
theorem layers_binary_witness :
    (frameTwoActors.lane 0 0 = 0 ∨ frameTwoActors.lane 0 0 = 255) ∧
    (frameTwoActors.sidewalk 0 0 = 0 ∨ frameTwoActors.sidewalk 0 0 = 255) ∧
    (frameTwoActors.vehicle 0 0 = 0 ∨ frameTwoActors.vehicle 0 0 = 255) ∧
    (frameTwoActors.pedestrian 0 0 = 0 ∨ frameTwoActors.pedestrian 0 0 = 255) :=
  layers_binary cfg320 heroO worldTwoActors frameTwoActors rfl 0 0

/-- C6: in point-entity mode, a cell of the actor layer is 255 exactly
when some actor of the target category other than the hero has its
transformed position in bounds and the cell lies (within the canvas) in
the filled disk of radius 3 around that pixel — the layer is the union
of the clipped disks over an all-zero canvas, and every other cell is 0. -/
theorem actor_layer_union_of_disks (w : BEVWrapper) (hero : Actor)
    (actor_list : List Actor) (t : String) (x y : ℤ) :
    (w.draw_actor_layers hero actor_list t x y = 255 ↔
      ∃ a ∈ actor_list, typeMatches t a = true ∧ a.id ≠ hero.id ∧
        inCanvasP w (w.world_to_pixel hero a.location) ∧ inCanvas w x y ∧
        dist2 (x, y) (w.world_to_pixel hero a.location) ≤ 3 ^ 2) ∧
    (w.draw_actor_layers hero actor_list t x y = 255 ∨
      w.draw_actor_layers hero actor_list t x y = 0) := by
  have h := draw_actor_char w hero actor_list t x y
  refine ⟨?_, h.2⟩
  rw [h.1]
  simp only [actorHit]

/-- C7: in surface mode, a cell of the lane canvas is 255 exactly when
some sample classifies as Driving (in bounds, brush covering the cell),
and a cell of the sidewalk canvas is 255 exactly when some sample
classifies as Sidewalk or Shoulder; samples with any other
classification, or with none, write to neither layer. -/
theorem road_layer_routing (w : BEVWrapper) (hero : Actor)
    (mp : Location → Option LaneType) (x y : ℤ) :
    ((w.draw_road_layers hero mp).1 x y = 255 ↔
      ∃ ij : ℕ × ℕ, ij.1 < w.sampleCount ∧ ij.2 < w.sampleCount ∧
        mp (sampleLoc w hero ij) = some LaneType.Driving ∧
        inCanvasP w (w.world_to_pixel hero (sampleLoc w hero ij)) ∧
        inCanvas w x y ∧
        inBrush (w.world_to_pixel hero (sampleLoc w hero ij))
          (w.brush_size / 2) x y) ∧
    ((w.draw_road_layers hero mp).2 x y = 255 ↔
      ∃ ij : ℕ × ℕ, ij.1 < w.sampleCount ∧ ij.2 < w.sampleCount ∧
        (mp (sampleLoc w hero ij) = some LaneType.Sidewalk ∨
          mp (sampleLoc w hero ij) = some LaneType.Shoulder) ∧
        inCanvasP w (w.world_to_pixel hero (sampleLoc w hero ij)) ∧
        inCanvas w x y ∧
        inBrush (w.world_to_pixel hero (sampleLoc w hero ij))
          (w.brush_size / 2) x y) := by
  constructor
  · rw [(lane_canvas_char w hero mp x y).1]
    simp only [laneHit]
  · rw [(side_canvas_char w hero mp x y).1]
    simp only [sideHit]

/-- C8: a target whose transformed pixel is out of bounds is excluded
from rasterization entirely — dropping it from the actor list leaves the
layer unchanged, an out-of-bounds road sample leaves both road canvases
unchanged (no clamped boundary write in either case) — and the
out-of-bounds case is not an error: get_bev_data still succeeds. -/
theorem out_of_bounds_excluded :
    (∀ (w : BEVWrapper) (hero : Actor) (t : String) (a : Actor)
        (rest : List Actor),
      ¬ inCanvasP w (w.world_to_pixel hero a.location) →
      w.draw_actor_layers hero (a :: rest) t =
        w.draw_actor_layers hero rest t) ∧
    (∀ (w : BEVWrapper) (hero : Actor) (mp : Location → Option LaneType)
        (cs : Canvas × Canvas) (ij : ℕ × ℕ),
      ¬ inCanvasP w (w.world_to_pixel hero (sampleLoc w hero ij)) →
      roadStep w hero mp cs ij = cs) ∧
    (∀ (w : BEVWrapper) (hero : Actor) (world : World),
      isOkE (w.get_bev_data (some hero) world) = true) := by
  refine ⟨?_, ?_, ?_⟩
  · intro w hero t a rest hout
    unfold BEVWrapper.draw_actor_layers
    by_cases hm : typeMatches t a
    · have hstep : actorStep w hero Canvas.zero a = Canvas.zero := by
        unfold actorStep
        by_cases hid : a.id = hero.id
        · rw [if_pos hid]
        · rw [if_neg hid, if_neg hout]
      simp [List.filter_cons, hm, hstep]
    · simp [List.filter_cons, hm]
  · intro w hero mp cs ij hout
    cases hmp : mp (sampleLoc w hero ij) with
    | none => simp [roadStep, hmp]
    | some lt => simp [roadStep, hmp, hout]
  · intro w hero world
    rfl

/-- A vehicle far outside the BEV window: its pixel under the origin
hero is (-1840, 160). -/
noncomputable def farVeh : Actor := ⟨3, vehTypeId, ⟨⟨100, 0⟩, 0⟩, true⟩

/-- C8 witness: the exclusion rules applied concretely — the far
vehicle leaves the vehicle layer unchanged, an out-of-window road
sample (index (0,0), pixel (320, 320)) leaves the road canvases
unchanged even though it classifies as Driving, and get_bev_data on
the two-actor world succeeds. -/
theorem out_of_bounds_excluded_witness :
    (cfg320.draw_actor_layers heroO (farVeh :: []) vehicleType =
      cfg320.draw_actor_layers heroO [] vehicleType) ∧
    (roadStep cfg320 heroO (fun _ => some LaneType.Driving)
      (Canvas.zero, Canvas.zero) (0, 0) = (Canvas.zero, Canvas.zero)) ∧
    isOkE (cfg320.get_bev_data (some heroO) worldTwoActors) = true := by
  have hA : cfg320.world_to_pixel heroO farVeh.location = (-1840, 160) := by
    simp only [BEVWrapper.world_to_pixel, Actor.location, farVeh, heroO, cfg320,
      radians, Prod.mk.injEq]
    constructor
    · exact pyTrunc_eq_of (by push_cast; norm_num [Real.cos_zero, Real.sin_zero])
    · exact pyTrunc_eq_of (by push_cast; norm_num [Real.cos_zero, Real.sin_zero])
  have hloc : sampleLoc cfg320 heroO (0, 0) = ⟨-8, -8⟩ := by
    simp only [sampleLoc, BEVWrapper.sampleCoord, step_size, Transform.apply,
      heroO, cfg320, radians, Location.mk.injEq]
    norm_num [Real.cos_zero, Real.sin_zero]
  have hB : cfg320.world_to_pixel heroO (sampleLoc cfg320 heroO (0, 0)) =
      (320, 320) := by
    rw [hloc]
    simp only [BEVWrapper.world_to_pixel, heroO, cfg320, radians, Prod.mk.injEq]
    constructor
    · exact pyTrunc_eq_of (by push_cast; norm_num [Real.cos_zero, Real.sin_zero])
    · exact pyTrunc_eq_of (by push_cast; norm_num [Real.cos_zero, Real.sin_zero])
  refine ⟨?_, ?_, ?_⟩
  · exact out_of_bounds_excluded.1 cfg320 heroO vehicleType farVeh []
      (by rw [inCanvasP, hA]; decide)
  · exact out_of_bounds_excluded.2.1 cfg320 heroO _ _ (0, 0)
      (by rw [inCanvasP, hB]; decide)
  · exact out_of_bounds_excluded.2.2 cfg320 heroO worldTwoActors

/-- A hero reference that is present but no longer alive. -/
noncomputable def deadHero : Actor := ⟨5, heroTypeId, ⟨⟨0, 0⟩, 0⟩, false⟩

/-- A world whose only actor is the dead hero, with an empty map. -/
noncomputable def worldDeadHero : World := ⟨[deadHero], fun _ => none⟩

/-- C9 counterexample: with a present but not-alive hero, get_bev_data
does not fail — it returns a complete frame (the source never checks
is_alive). -/
theorem dead_hero_counterexample :
    deadHero.is_alive = false ∧
    isOkE (cfg320.get_bev_data (some deadHero) worldDeadHero) = true :=
  ⟨rfl, rfl⟩

/-- C9 (amended): get_bev_data fails (the hero dereference raises)
exactly when the hero reference is absent, and then no layer is built;
when a hero reference is present a complete four-layer frame is always
returned — liveness is never consulted, so a dead hero yields a normal
full frame. -/
theorem hero_guard :
    (∀ (w : BEVWrapper) (world : World),
      w.get_bev_data none world = Except.error ()) ∧
    (∀ (w : BEVWrapper) (hero : Actor) (world : World),
      w.get_bev_data (some hero) world = Except.ok
        { lane := (w.draw_road_layers hero world.laneTypeAt).1
          sidewalk := (w.draw_road_layers hero world.laneTypeAt).2
          vehicle := w.draw_actor_layers hero world.actors vehicleType
          pedestrian := w.draw_actor_layers hero world.actors walkerType }) ∧
    (∀ (w : BEVWrapper) (i : ℕ) (t : String) (tf : Transform)
        (b1 b2 : Bool) (world : World),
      w.get_bev_data (some ⟨i, t, tf, b1⟩) world =
        w.get_bev_data (some ⟨i, t, tf, b2⟩) world) :=
  ⟨fun _ _ => rfl, fun _ _ _ => rfl, fun _ _ _ _ _ _ _ => rfl⟩

/-- C10: inclusion of an actor depends solely on its center pixel being
in bounds — an in-bounds center stamps the part of its radius-3 disk
that lies inside the canvas (a partial disk when the center is near an
edge), while an out-of-bounds center contributes nothing, even at cells
where its disk would overlap the canvas. -/
theorem disk_clipping (w : BEVWrapper) (hero a : Actor) (t : String)
    (hm : typeMatches t a = true) (hid : a.id ≠ hero.id) :
    (inCanvasP w (w.world_to_pixel hero a.location) →
      ∀ x y : ℤ, (w.draw_actor_layers hero [a] t x y = 255 ↔
        inCanvas w x y ∧
          dist2 (x, y) (w.world_to_pixel hero a.location) ≤ 3 ^ 2)) ∧
    (¬ inCanvasP w (w.world_to_pixel hero a.location) →
      ∀ x y : ℤ, w.draw_actor_layers hero [a] t x y = 0) := by
  constructor
  · intro hin x y
    rw [(draw_actor_char w hero [a] t x y).1]
    constructor
    · rintro ⟨b, hb, _, hhit⟩
      rcases List.mem_singleton.mp hb with rfl
      exact ⟨hhit.2.2.1, hhit.2.2.2⟩
    · rintro ⟨hxy, hd⟩
      exact ⟨a, List.mem_singleton.mpr rfl, hm, hid, hin, hxy, hd⟩
  · intro hout x y
    have h := draw_actor_char w hero [a] t x y
    rcases h.2 with h255 | h0
    · exfalso
      rcases h.1.mp h255 with ⟨b, hb, _, hhit⟩
      rcases List.mem_singleton.mp hb with rfl
      exact hout hhit.2.1
    · exact h0

/-- A pedestrian whose pixel (1, 160) is in bounds, one pixel from the
left edge: its disk is clipped. -/
noncomputable def pedA : Actor := ⟨7, heroTypeId, ⟨⟨7.95, 0⟩, 0⟩, true⟩

/-- A pedestrian whose pixel (-1, 160) is out of bounds although its
radius-3 disk overlaps the canvas: it is dropped entirely. -/
noncomputable def pedB : Actor := ⟨8, heroTypeId, ⟨⟨8.05, 0⟩, 0⟩, true⟩

/-- C10 witness: the near-edge pedestrian paints the boundary cell
(0, 160) (clipped partial disk), while the just-outside pedestrian
leaves the same cell at 0 although the cell is within its disk. -/
theorem disk_clipping_witness :
    cfg320.draw_actor_layers heroO [pedA] walkerType 0 160 = 255 ∧
    cfg320.draw_actor_layers heroO [pedB] walkerType 0 160 = 0 := by
  have hA : cfg320.world_to_pixel heroO pedA.location = (1, 160) := by
    simp only [BEVWrapper.world_to_pixel, Actor.location, pedA, heroO, cfg320,
      radians, Prod.mk.injEq]
    constructor
    · exact pyTrunc_eq_of (by push_cast; norm_num [Real.cos_zero, Real.sin_zero])
    · exact pyTrunc_eq_of (by push_cast; norm_num [Real.cos_zero, Real.sin_zero])
  have hB : cfg320.world_to_pixel heroO pedB.location = (-1, 160) := by
    simp only [BEVWrapper.world_to_pixel, Actor.location, pedB, heroO, cfg320,
      radians, Prod.mk.injEq]
    constructor
    · exact pyTrunc_eq_of (by push_cast; norm_num [Real.cos_zero, Real.sin_zero])
    · exact pyTrunc_eq_of (by push_cast; norm_num [Real.cos_zero, Real.sin_zero])
  constructor
  · refine ((disk_clipping cfg320 heroO pedA walkerType (by decide)
      (by decide)).1 ?_ 0 160).mpr ?_
    · rw [inCanvasP, hA]; decide
    · rw [hA]
      refine ⟨by decide, by decide⟩
  · exact (disk_clipping cfg320 heroO pedB walkerType (by decide)
      (by decide)).2 (by rw [inCanvasP, hB]; decide) 0 160

end PedRL
